import Mathlib

/-!
Verification development for the OKR query-resolution and response-normalization
engine of the oboard_mcp repository (the `OboardClient` class): reference cache
refresh, cycle/team resolution, date formatting, response normalization, team
filtering and error classification, embedded shallowly as pure Lean functions.

JavaScript dynamic values are embedded with `Option`: `none` stands for
`undefined`/`null`/an absent field.  JavaScript truthiness is modelled
explicitly (`""` and `0` are falsy).  String primitives used by the source
(`toLowerCase`, `split`, `parseInt`, `Array.prototype.sort`) are embedded as
kernel-computable char-list functions below.
-/

namespace Oboard

/-- JavaScript truthiness of an optional string: `undefined` and `""` are falsy. -/
def truthyStr : Option String → Bool
| some s => !(s == "")
| none => false

/-- JavaScript truthiness of an optional number: `undefined` and `0` are falsy. -/
def truthyNum : Option Int → Bool
| some n => !(n == 0)
| none => false

/-- JavaScript `a || b` on optional numbers (`0` and `undefined` are falsy). -/
def jsOrNum (a b : Option Int) : Option Int :=
  if truthyNum a then a else b

/-- JavaScript `a || b` where `a` is an optional string and `b` a string
(`""` and `undefined` are falsy). -/
def jsStrOr (a : Option String) (b : String) : String :=
  match a with
  | some s => if s = "" then b else s
  | none => b

/-- ASCII lower-casing of one character (the fragment of `toLowerCase` the
source exercises: cycle and team names). -/
def charToLower (c : Char) : Char :=
  if 65 ≤ c.toNat ∧ c.toNat ≤ 90 then Char.ofNat (c.toNat + 32) else c

/-- `String.prototype.toLowerCase`, embedded for the ASCII range. -/
def toLowerStr (s : String) : String := String.mk (s.toList.map charToLower)

/-- `String.prototype.split` with a single-character separator. -/
def splitOnChar (sep : Char) : List Char → List (List Char)
| [] => [[]]
| c :: rest =>
  match splitOnChar sep rest with
  | [] => [[]]
  | h :: t => if c = sep then [] :: h :: t else (c :: h) :: t

/-- `str.split(sep)` for a one-character separator, on strings. -/
def strSplit (s : String) (sep : Char) : List String :=
  (splitOnChar sep s.toList).map String.mk

/-- `parseInt(s, 10)`: skip leading whitespace, optional sign, then the longest
digit prefix; `none` models `NaN` (no digits found). -/
def parseIntJs (s : String) : Option Int :=
  let cs := s.toList.dropWhile (fun c => c = ' ' ∨ c = '\t' ∨ c = '\n' ∨ c = '\r')
  let signAndRest : Int × List Char :=
    match cs with
    | '-' :: r => (-1, r)
    | '+' :: r => (1, r)
    | r => (1, r)
  let digits := signAndRest.2.takeWhile Char.isDigit
  if digits = [] then none
  else some (signAndRest.1 * digits.foldl (fun acc c => acc * 10 + ((c.toNat : Int) - 48)) 0)

/-- Stable insertion of `a` after every element `b` with `le b a`; building
block of the embedded `Array.prototype.sort`. -/
def insertIntoSorted (le : α → α → Bool) (a : α) : List α → List α
| [] => [a]
| b :: bs => if le b a then b :: insertIntoSorted le a bs else a :: b :: bs

/-- `Array.prototype.sort(comparator)` (stable, ascending in the comparator),
embedded as a stable insertion sort; `le a b` means `comparator(a,b) <= 0`. -/
def sortJs (le : α → α → Bool) (l : List α) : List α :=
  l.foldl (fun acc a => insertIntoSorted le a acc) []

/-- `x?.toString() || ''` for an optional numeric id. -/
def idString (o : Option Int) : String :=
  match o with
  | some n => toString n
  | none => ""

/-- A cycle cache entry (source interface `CycleInfo`). -/
structure CycleInfo where
  id : String
  name : String
deriving DecidableEq, Repr

/-- A team cache entry (source interface `TeamInfo`). -/
structure TeamInfo where
  id : String
  name : String
deriving DecidableEq, Repr

/-- A raw upstream interval/group record; the source reads its `id` (numeric)
and `name` fields. -/
structure RawRef where
  id : Int
  name : String
deriving DecidableEq, Repr

/-- An upstream fetch failure (an axios rejection), carrying a message. -/
structure FetchError where
  message : String
deriving DecidableEq, Repr

/-- The client's mutable reference-cache fields (`cyclesCache`, `teamsCache`,
`cacheExpiry`). -/
structure CacheState where
  cyclesCache : List CycleInfo := []
  teamsCache : List TeamInfo := []
  cacheExpiry : Nat := 0
deriving DecidableEq, Repr

/-- Outcome of one `loadCyclesAndTeams` call: the cache state after the call,
the error it rethrew (if any), and whether it issued the upstream fetches. -/
structure LoadResult where
  state : CacheState
  error : Option FetchError
  fetched : Bool
deriving DecidableEq, Repr

/-- `(interval) => ({ id: interval.id.toString(), name: interval.name })`. -/
def cycleOfRaw (r : RawRef) : CycleInfo := { id := toString r.id, name := r.name }

/-- `(group) => ({ id: group.id.toString(), name: group.name })`. -/
def teamOfRaw (r : RawRef) : TeamInfo := { id := toString r.id, name := r.name }

/-- `OboardClient.loadCyclesAndTeams`, with the implicit state made explicit.
The two upstream responses are parameters: `Except.error` is a rejected fetch,
`Except.ok` carries the response's optional `data.data` array.  The source
assigns `this.cyclesCache` before fetching the teams, so a teams failure
leaves the first assignment in place. -/
def loadCyclesAndTeams (st : CacheState) (now ttl : Nat)
    (cyclesResp : Except FetchError (Option (List RawRef)))
    (teamsResp : Except FetchError (Option (List RawRef))) : LoadResult :=
  if 0 < st.cyclesCache.length ∧ 0 < st.teamsCache.length ∧ now < st.cacheExpiry then
    { state := st, error := none, fetched := false }
  else
    match cyclesResp with
    | .error e => { state := st, error := some e, fetched := true }
    | .ok cdata =>
      let st1 : CacheState := { st with cyclesCache := (cdata.getD []).map cycleOfRaw }
      match teamsResp with
      | .error e => { state := st1, error := some e, fetched := true }
      | .ok tdata =>
        let st2 : CacheState :=
          { st1 with
            teamsCache := (tdata.getD []).map teamOfRaw
            cacheExpiry := now + ttl }
        { state := st2, error := none, fetched := true }

/-- A group reference inside a raw element; the source reads only `.name`. -/
structure GroupRef where
  name : String
deriving DecidableEq, Repr

/-- A raw child element; the source reads `typeId`, `id`, `name`, `progress`. -/
structure ChildElement where
  typeId : Option Int := none
  id : Option Int := none
  name : Option String := none
  progress : Option Int := none
deriving DecidableEq, Repr

/-- A raw upstream element record, with exactly the fields the source reads;
`none` is an absent field. -/
structure Element where
  typeId : Option Int := none
  id : Option Int := none
  displayId : Option String := none
  name : Option String := none
  description : Option String := none
  grade : Option Int := none
  currentValue : Option Int := none
  intervalName : Option String := none
  levelName : Option String := none
  customFields : Option (List (String × String)) := none
  groups : Option (List GroupRef) := none
  teams : Option (List GroupRef) := none
  childElements : Option (List ChildElement) := none
  children : Option (List ChildElement) := none
deriving DecidableEq, Repr

/-- Source interface `KeyResult`. -/
structure KeyResult where
  id : String
  title : String
  progress : Int
deriving DecidableEq, Repr

/-- Source interface `OKR` (the uniform output record). -/
structure OKR where
  id : String
  displayId : String
  title : String
  description : String
  status : String
  cycle : String
  team : String
  level : String
  grade : Option Int
  customFields : List (String × String)
  keyResults : List KeyResult
deriving DecidableEq, Repr

/-- Source interface `OKRSearchParams`; all fields optional. -/
structure OKRSearchParams where
  searchString : Option String := none
  startDateFrom : Option String := none
  startDateTo : Option String := none
  dueDateFrom : Option String := none
  dueDateTo : Option String := none
  cycle : Option String := none
  team : Option String := none
deriving DecidableEq, Repr

/-- `OboardClient.getStatusFromGrade`. -/
def getStatusFromGrade (grade : Int) : String :=
  if grade ≥ 70 then "On Track"
  else if grade ≥ 40 then "Behind"
  else "At Risk"

/-- `OboardClient.extractKeyResults`: keep the children with `typeId === 2`. -/
def extractKeyResults (keyResults : List ChildElement) : List KeyResult :=
  (keyResults.filter (fun kr => kr.typeId == some 2)).map
    (fun kr => { id := idString kr.id, title := kr.name.getD "", progress := kr.progress.getD 0 })

/-- `element.childElements || element.children || []` (an array, even empty,
is truthy). -/
def childListOf (element : Element) : List ChildElement :=
  match element.childElements with
  | some l => l
  | none => element.children.getD []

/-- The promotion of a bare key result (`typeId === 4`) to a synthetic
top-level OKR (the `keyResults.map` body in `transformElementsToOKRs`). -/
def promoteKeyResultToOKR (kr : Element) : OKR :=
  { id := idString kr.id
    displayId := kr.displayId.getD ""
    title := kr.name.getD ""
    description := kr.description.getD ""
    status := getStatusFromGrade (kr.currentValue.getD 0)
    cycle := kr.intervalName.getD ""
    team := match kr.groups with
            | some (g :: _) => g.name
            | _ => ""
    level := ""
    grade := kr.currentValue
    customFields := []
    keyResults := [] }

/-- The standard element-to-OKR mapping (the `elements.map` body in
`transformElementsToOKRs`). -/
def standardOKR (element : Element) : OKR :=
  { id := idString element.id
    displayId := element.displayId.getD ""
    title := element.name.getD ""
    description := element.description.getD ""
    status := getStatusFromGrade ((jsOrNum element.grade element.currentValue).getD 0)
    cycle := element.intervalName.getD ""
    team := match element.groups with
            | some (g :: _) => g.name
            | _ => match element.teams with
                   | some (t :: _) => t.name
                   | _ => ""
    level := element.levelName.getD ""
    grade := jsOrNum element.grade element.currentValue
    customFields := element.customFields.getD []
    keyResults := extractKeyResults (childListOf element) }

/-- `OboardClient.transformElementsToOKRs`. -/
def transformElementsToOKRs (elements : List Element) : List OKR :=
  if elements.length = 0 then []
  else
    let okrs := elements.filter (fun element => element.typeId == some 1)
    let keyResults := elements.filter (fun element => element.typeId == some 4)
    if okrs.length = 0 ∧ 0 < keyResults.length then
      keyResults.map promoteKeyResultToOKR
    else
      elements.map standardOKR

/-- `OboardClient.resolveTeamToId`: case-insensitive exact name match, or
`undefined` on no match or an unloaded cache. -/
def resolveTeamToId (teamsCache : List TeamInfo) (teamName : Option String) : Option String :=
  match teamName with
  | none => none
  | some tn =>
    if tn = "" then none
    else if teamsCache.length = 0 then none
    else (teamsCache.find? (fun t => toLowerStr t.name == toLowerStr tn)).map TeamInfo.id

/-- `OboardClient.filterByTeam`. -/
def filterByTeam (teamsCache : List TeamInfo) (okrs : List OKR) (teamName : String) : List OKR :=
  if teamName = "" then okrs
  else
    let teamId := resolveTeamToId teamsCache (some teamName)
    if teamName ≠ "" ∧ truthyStr teamId = false then []
    else okrs.filter (fun okr => toLowerStr okr.team == toLowerStr teamName)

/-- Parsed year of a cycle name: `parseInt(name.split('-')[0] || '0', 10)`. -/
def cycleYear (e : CycleInfo) : Option Int :=
  parseIntJs (jsStrOr ((strSplit e.name '-').get? 0) "0")

/-- Parsed quarter of a cycle name: `parseInt(name.split('Q')[1] || '0', 10)`. -/
def cycleQuarter (e : CycleInfo) : Option Int :=
  parseIntJs (jsStrOr ((strSplit e.name 'Q').get? 1) "0")

/-- The sort comparator of `resolveCycleToIntervalId` (descending year, then
descending quarter).  `none` is `NaN`: it compares unequal to everything, and a
`NaN` comparator value is coerced to `0` by the sort. -/
def cycleCompare (a b : CycleInfo) : Int :=
  let aYear := cycleYear a
  let bYear := cycleYear b
  let yearsDiffer : Bool :=
    match aYear, bYear with
    | some x, some y => x != y
    | _, _ => true
  if yearsDiffer then
    match aYear, bYear with
    | some x, some y => y - x
    | _, _ => 0
  else
    match cycleQuarter a, cycleQuarter b with
    | some x, some y => y - x
    | _, _ => 0

/-- `[...this.cyclesCache].sort(comparator)`. -/
def sortCycles (cyclesCache : List CycleInfo) : List CycleInfo :=
  sortJs (fun a b => cycleCompare a b ≤ 0) cyclesCache

/-- `OboardClient.resolveCycleToIntervalId`. -/
def resolveCycleToIntervalId (cyclesCache : List CycleInfo) (cycle : Option String) :
    Option String :=
  match cycle with
  | none => none
  | some c =>
    if c = "" then none
    else if cyclesCache.length = 0 then none
    else
      let sorted := sortCycles cyclesCache
      if toLowerStr c = "current" ∧ 0 < sorted.length then (sorted.get? 0).map CycleInfo.id
      else if toLowerStr c = "previous" ∧ 1 < sorted.length then (sorted.get? 1).map CycleInfo.id
      else if toLowerStr c = "all" then none
      else (cyclesCache.find? (fun e => toLowerStr e.name == toLowerStr c)).map CycleInfo.id

/-- The dynamic shape of `response.data` in the search-string branch of
`searchOKRs`: a bare array of elements, an object (whose optional `data`
field is again a dynamic value), or any non-object non-array value. -/
inductive RespValue where
| array (elements : List Element)
| object (dataField : Option RespValue)
| primitive

/-- The shape dispatch of `searchOKRs` (search-string branch): a bare array is
used directly; an object with an array-valued `data` field contributes that
array; every other shape degrades to the empty element list. -/
def extractElements : RespValue → List Element
| .array es => es
| .object dataField =>
  match dataField with
  | some (.array es) => es
  | _ => []
| .primitive => []

/-- `Array.isArray(response.data)`. -/
def isArrayShape : RespValue → Bool
| .array _ => true
| _ => false

/-- Whether `response.data` is an object whose `data` field is an array. -/
def hasDataArray : RespValue → Bool
| .object (some (.array _)) => true
| _ => false

/-- `response.data.data || []` — the element extraction of the non-search
branch of `searchOKRs`. -/
def dataFieldElements : RespValue → List Element
| .object (some (.array es)) => es
| _ => []

/-- UTF-8 encoding of one character, as byte values. -/
def utf8BytesOfChar (c : Char) : List Nat :=
  let n := c.toNat
  if n < 128 then [n]
  else if n < 2048 then [192 + n / 64, 128 + n % 64]
  else if n < 65536 then [224 + n / 4096, 128 + n / 64 % 64, 128 + n % 64]
  else [240 + n / 262144, 128 + n / 4096 % 64, 128 + n / 64 % 64, 128 + n % 64]

/-- Upper-case hexadecimal digit for a value below 16. -/
def hexDigitChar (n : Nat) : Char :=
  if n < 10 then Char.ofNat (48 + n) else Char.ofNat (55 + n)

/-- The characters `encodeURIComponent` leaves unescaped. -/
def isUnreservedURIChar (c : Char) : Bool :=
  c.isAlpha || c.isDigit ||
    [Char.ofNat 45, Char.ofNat 95, Char.ofNat 46, Char.ofNat 33, Char.ofNat 126,
     Char.ofNat 42, Char.ofNat 39, Char.ofNat 40, Char.ofNat 41].contains c

/-- `encodeURIComponent`: percent-encode every character outside the
unreserved set, byte by byte of its UTF-8 encoding. -/
def encodeURIComponent (s : String) : String :=
  String.mk (s.toList.foldr
    (fun c acc =>
      if isUnreservedURIChar c then c :: acc
      else (utf8BytesOfChar c).foldr
        (fun b acc2 => '%' :: hexDigitChar (b / 16) :: hexDigitChar (b % 16) :: acc2) acc)
    [])

/-- `isLeapYear` for the Gregorian calendar. -/
def isLeapYear (y : Nat) : Bool :=
  (y % 4 == 0) && (!(y % 100 == 0) || (y % 400 == 0))

/-- Number of days in a month. -/
def daysInMonth (y m : Nat) : Nat :=
  if m = 2 then (if isLeapYear y then 29 else 28)
  else if m = 4 ∨ m = 6 ∨ m = 9 ∨ m = 11 then 30
  else 31

/-- Numeric value of an ASCII digit character. -/
def digitVal (c : Char) : Nat := c.toNat - 48

/-- The host `new Date(s)` parse, modelled for the `YYYY-MM-DD` (date-only)
form of the ECMA Date Time String Format, with calendar validation; every
other input behaves as an invalid date (`none`), matching
`isNaN(date.getTime())`. -/
def parseIsoDate (s : String) : Option (Nat × Nat × Nat) :=
  match s.toList with
  | [y1, y2, y3, y4, sep1, m1, m2, sep2, d1, d2] =>
    if (y1.isDigit && y2.isDigit && y3.isDigit && y4.isDigit && (sep1 == '-') &&
        m1.isDigit && m2.isDigit && (sep2 == '-') && d1.isDigit && d2.isDigit) then
      let y := digitVal y1 * 1000 + digitVal y2 * 100 + digitVal y3 * 10 + digitVal y4
      let m := digitVal m1 * 10 + digitVal m2
      let d := digitVal d1 * 10 + digitVal d2
      if 1 ≤ m ∧ m ≤ 12 ∧ 1 ≤ d ∧ d ≤ daysInMonth y m then some (y, m, d) else none
    else none
  | _ => none

/-- Decimal digit character of `x % 10`. -/
def dChar (x : Nat) : Char := Char.ofNat (48 + x % 10)

/-- Four-digit zero-padded rendering. -/
def pad4Chars (n : Nat) : List Char := [dChar (n / 1000), dChar (n / 100), dChar (n / 10), dChar n]

/-- Two-digit zero-padded rendering. -/
def pad2Chars (n : Nat) : List Char := [dChar (n / 10), dChar n]

/-- `date.toISOString()` for a date-only parse result: UTC midnight with
millisecond precision (format `YYYY-MM-DDTHH:mm:ss.sssZ`). -/
def toISOStringOfDate : Nat × Nat × Nat → String
| (y, m, d) =>
  String.mk (pad4Chars y ++ '-' :: pad2Chars m ++ '-' :: pad2Chars d ++ "T00:00:00.000Z".toList)

/-- Recognizer for a fixed-precision ISO-8601 UTC instant string
(`YYYY-MM-DDTHH:mm:ss.sssZ`, 24 characters). -/
def isIsoInstant (s : String) : Bool :=
  match s.toList with
  | [a1, a2, a3, a4, s1, b1, b2, s2, c1, c2, t, h1, h2, s3, n1, n2, s4, e1, e2, dot,
     f1, f2, f3, z] =>
    a1.isDigit && a2.isDigit && a3.isDigit && a4.isDigit && (s1 == '-') &&
    b1.isDigit && b2.isDigit && (s2 == '-') && c1.isDigit && c2.isDigit && (t == 'T') &&
    h1.isDigit && h2.isDigit && (s3 == ':') && n1.isDigit && n2.isDigit && (s4 == ':') &&
    e1.isDigit && e2.isDigit && (dot == '.') && f1.isDigit && f2.isDigit && f3.isDigit &&
    (z == 'Z')
  | _ => false

/-- `OboardClient.formatDateString`. -/
def formatDateString (dateStr : Option String) : Option String :=
  match dateStr with
  | none => none
  | some s => if s = "" then none else (parseIsoDate s).map toISOStringOfDate

/-- The query-parameter record the non-search branch of `searchOKRs` builds
(`workspaceIds` always present, date and interval parameters only when their
resolution produced a truthy value). -/
structure QueryParamsRec where
  workspaceIds : String
  startDateFrom : Option String := none
  startDateTo : Option String := none
  dueDateFrom : Option String := none
  dueDateTo : Option String := none
  intervalIds : Option String := none
deriving DecidableEq, Repr

/-- The upstream request `searchOKRs` issues: the direct URL of the
search-string branch (query parameters exactly `workspaceIds` and the encoded
`searchString`), or the parameter record of the other branch. -/
inductive UpstreamRequest where
| searchUrl (workspaceIds : String) (searchStringEncoded : String)
| elementsParams (params : QueryParamsRec)
deriving DecidableEq, Repr

/-- `if (x) params.k = x` — keep an optional value only when truthy. -/
def keepIfTruthy (o : Option String) : Option String :=
  if truthyStr o then o else none

/-- The parameter record built by the non-search branch of `searchOKRs`. -/
def buildElementsParams (workspaceId : String) (cyclesCache : List CycleInfo)
    (p : OKRSearchParams) : QueryParamsRec :=
  { workspaceIds := workspaceId
    startDateFrom := keepIfTruthy (formatDateString p.startDateFrom)
    startDateTo := keepIfTruthy (formatDateString p.startDateTo)
    dueDateFrom := keepIfTruthy (formatDateString p.dueDateFrom)
    dueDateTo := keepIfTruthy (formatDateString p.dueDateTo)
    intervalIds := keepIfTruthy (resolveCycleToIntervalId cyclesCache p.cycle) }

/-- The upstream request issued by `searchOKRs` for a given filter. -/
def searchRequest (workspaceId : String) (cyclesCache : List CycleInfo)
    (p : OKRSearchParams) : UpstreamRequest :=
  if truthyStr p.searchString then
    .searchUrl workspaceId (encodeURIComponent (p.searchString.getD ""))
  else
    .elementsParams (buildElementsParams workspaceId cyclesCache p)

/-- The result computation of `OboardClient.searchOKRs` on a given upstream
response: shape dispatch, normalization, then in-memory team filtering. -/
def searchOKRs (teamsCache : List TeamInfo) (p : OKRSearchParams) (resp : RespValue) :
    List OKR :=
  if truthyStr p.searchString then
    let okrs := transformElementsToOKRs (extractElements resp)
    if truthyStr p.team then filterByTeam teamsCache okrs (p.team.getD "") else okrs
  else
    let okrs := transformElementsToOKRs (dataFieldElements resp)
    if truthyStr p.team then filterByTeam teamsCache okrs (p.team.getD "") else okrs

/-- An error caught by `searchOKRs`: an axios error (optional response status,
optional response-body message, error message, optional request URL) or any
other thrown value with its string rendering. -/
inductive CaughtError where
| axiosErr (status : Option Nat) (responseMessage : Option String) (message : String)
    (url : Option String)
| otherErr (message : String)
deriving DecidableEq, Repr

/-- The structured failures `searchOKRs` rethrows, one constructor per distinct
message format of the catch block. -/
inductive SearchFailure where
| authenticationFailed (msg : String)
| accessForbidden (msg : String)
| notFound (msg : String)
| rateLimited (msg : String)
| apiRequestFailed (status : Option Nat) (msg : String) (url : Option String)
| searchFailed (msg : String)
deriving DecidableEq, Repr

/-- Which constructor a failure uses (its error kind, ignoring the payload). -/
def failureTag : SearchFailure → Nat
| .authenticationFailed _ => 0
| .accessForbidden _ => 1
| .notFound _ => 2
| .rateLimited _ => 3
| .apiRequestFailed _ _ _ => 4
| .searchFailed _ => 5

/-- The catch block of `OboardClient.searchOKRs`: the `switch` on
`error.response?.status` with `errorMessage = error.response?.data?.message ||
error.message`, and the non-axios fallback. -/
def classifySearchError : CaughtError → SearchFailure
| .axiosErr status responseMessage message url =>
  let errorMessage := jsStrOr responseMessage message
  if status = some 401 then .authenticationFailed errorMessage
  else if status = some 403 then .accessForbidden errorMessage
  else if status = some 404 then .notFound errorMessage
  else if status = some 429 then .rateLimited errorMessage
  else .apiRequestFailed status errorMessage url
| .otherErr message => .searchFailed message

/-! Concrete fixtures used by counterexamples and witnesses. -/

/-- A populated but expired cache (expiry in the past). -/
def expiredCache : CacheState :=
  { cyclesCache := [⟨"1", "2023-Q4"⟩], teamsCache := [⟨"5", "Marketing"⟩], cacheExpiry := 0 }

/-- A populated cache whose expiry is far in the future. -/
def freshCache : CacheState :=
  { cyclesCache := [⟨"1", "2024-Q1"⟩], teamsCache := [⟨"2", "Engineering"⟩], cacheExpiry := 1000 }

/-! Theorems for the claims. -/

/-- C1 counterexample: the claim says a failing refresh leaves the previous
cache contents exactly as they were and that no partial-refresh state is
reachable.  On an expired cache, when the cycles fetch succeeds and the teams
fetch fails, `loadCyclesAndTeams` rethrows the error but has already replaced
the cycles sequence, while the teams sequence and expiry keep their old
values — an observable partial-refresh state. -/
theorem c1_counterexample :
    (loadCyclesAndTeams expiredCache 100 50
        (.ok (some [⟨9, "2024-Q1"⟩])) (.error ⟨"boom"⟩)).error = some ⟨"boom"⟩ ∧
    (loadCyclesAndTeams expiredCache 100 50
        (.ok (some [⟨9, "2024-Q1"⟩])) (.error ⟨"boom"⟩)).state.cyclesCache
      ≠ expiredCache.cyclesCache ∧
    (loadCyclesAndTeams expiredCache 100 50
        (.ok (some [⟨9, "2024-Q1"⟩])) (.error ⟨"boom"⟩)).state.teamsCache
      = expiredCache.teamsCache ∧
    (loadCyclesAndTeams expiredCache 100 50
        (.ok (some [⟨9, "2024-Q1"⟩])) (.error ⟨"boom"⟩)).state.cacheExpiry
      = expiredCache.cacheExpiry := by decide

/-- C1 (amended): when a refresh actually runs (cache empty or expired) and the
cycles fetch fails, the whole cache is left exactly as it was and the error is
rethrown; when the cycles fetch succeeds and the teams fetch fails, the error
is rethrown with the teams sequence and expiry unchanged but the cycles
sequence already replaced by the freshly fetched data. -/
theorem c1_refresh_failure_effects (st : CacheState) (now ttl : Nat) (e : FetchError)
    (cdata : Option (List RawRef)) (tr : Except FetchError (Option (List RawRef)))
    (h : ¬(0 < st.cyclesCache.length ∧ 0 < st.teamsCache.length ∧ now < st.cacheExpiry)) :
    loadCyclesAndTeams st now ttl (.error e) tr
        = { state := st, error := some e, fetched := true } ∧
    loadCyclesAndTeams st now ttl (.ok cdata) (.error e)
        = { state := { st with cyclesCache := (cdata.getD []).map cycleOfRaw }
            error := some e
            fetched := true } := by
  constructor <;> (unfold loadCyclesAndTeams; rw [if_neg h])

/-- Witness for `c1_refresh_failure_effects` at a concrete expired cache. -/
theorem c1_refresh_failure_effects_witness :
    loadCyclesAndTeams expiredCache 100 50 (.error ⟨"down"⟩) (.ok none)
        = { state := expiredCache, error := some ⟨"down"⟩, fetched := true } ∧
    loadCyclesAndTeams expiredCache 100 50 (.ok (some [⟨9, "2024-Q1"⟩])) (.error ⟨"down"⟩)
        = { state := { expiredCache with cyclesCache := ((some [⟨9, "2024-Q1"⟩]).getD []).map cycleOfRaw }
            error := some ⟨"down"⟩
            fetched := true } :=
  ⟨(c1_refresh_failure_effects expiredCache 100 50 ⟨"down"⟩ (some [⟨9, "2024-Q1"⟩])
      (.ok none) (by decide)).1,
   (c1_refresh_failure_effects expiredCache 100 50 ⟨"down"⟩ (some [⟨9, "2024-Q1"⟩])
      (.ok none) (by decide)).2⟩

/-- C8 counterexample: the claim quantifies over cache states that are already
populated with a future expiry; on such a state both calls inside the TTL
window are no-ops, so the two calls perform zero upstream fetch pairs, not
exactly one. -/
theorem c8_counterexample :
    (loadCyclesAndTeams freshCache 10 3600 (.ok (some [])) (.ok (some []))).fetched = false ∧
    (loadCyclesAndTeams
        (loadCyclesAndTeams freshCache 10 3600 (.ok (some [])) (.ok (some []))).state
        20 3600 (.ok (some [])) (.ok (some []))).fetched = false := by decide

/-- C8 (amended): two refresh calls within the TTL window perform at most one
pair of upstream fetches.  A call on a populated, unexpired cache is a no-op;
starting from a cache that needs refreshing, a successful call that fetched
non-empty cycles and teams does fetch, and a second call before the new expiry
is a no-op; with TTL 0, every call at or after the recorded expiry performs the
upstream fetches. -/
theorem c8_refresh_ttl (st : CacheState) (now1 now2 ttl : Nat) (cd td : List RawRef)
    (cr2 tr2 : Except FetchError (Option (List RawRef))) :
    (0 < st.cyclesCache.length ∧ 0 < st.teamsCache.length ∧ now1 < st.cacheExpiry →
      loadCyclesAndTeams st now1 ttl (.ok (some cd)) (.ok (some td))
        = { state := st, error := none, fetched := false }) ∧
    (¬(0 < st.cyclesCache.length ∧ 0 < st.teamsCache.length ∧ now1 < st.cacheExpiry) →
      cd ≠ [] → td ≠ [] → now2 < now1 + ttl →
      (loadCyclesAndTeams st now1 ttl (.ok (some cd)) (.ok (some td))).fetched = true ∧
      loadCyclesAndTeams
          (loadCyclesAndTeams st now1 ttl (.ok (some cd)) (.ok (some td))).state
          now2 ttl cr2 tr2
        = { state := (loadCyclesAndTeams st now1 ttl (.ok (some cd)) (.ok (some td))).state
            error := none
            fetched := false }) ∧
    (ttl = 0 → st.cacheExpiry ≤ now1 →
      ∀ cr tr, (loadCyclesAndTeams st now1 ttl cr tr).fetched = true) := by
  refine ⟨fun h => ?_, fun h hcd htd hlt => ?_, fun httl hexp cr tr => ?_⟩
  · unfold loadCyclesAndTeams
    rw [if_pos h]
  · unfold loadCyclesAndTeams
    rw [if_neg h]
    refine ⟨rfl, ?_⟩
    have hvalid : 0 < (List.map cycleOfRaw cd).length ∧ 0 < (List.map teamOfRaw td).length ∧
        now2 < now1 + ttl := by
      simp [List.length_map, List.length_pos, hcd, htd, hlt]
    simp only [Option.getD]
    rw [if_pos hvalid]
  · have hnv : ¬(0 < st.cyclesCache.length ∧ 0 < st.teamsCache.length ∧
        now1 < st.cacheExpiry) := by
      intro hc
      exact absurd hc.2.2 (Nat.not_lt.mpr hexp)
    unfold loadCyclesAndTeams
    rw [if_neg hnv]
    cases cr with
    | error e => rfl
    | ok cdata =>
      cases tr with
      | error e => rfl
      | ok tdata => rfl

/-- Witness for `c8_refresh_ttl`: a fresh cache makes the first call a no-op;
an expired cache with non-empty fetch results makes the second call a no-op;
TTL 0 forces a fetch. -/
theorem c8_refresh_ttl_witness :
    (loadCyclesAndTeams freshCache 10 3600 (.ok (some [⟨1, "a"⟩])) (.ok (some [⟨2, "b"⟩]))
        = { state := freshCache, error := none, fetched := false }) ∧
    ((loadCyclesAndTeams expiredCache 10 3600
          (.ok (some [⟨1, "a"⟩])) (.ok (some [⟨2, "b"⟩]))).fetched = true ∧
      loadCyclesAndTeams
          (loadCyclesAndTeams expiredCache 10 3600
            (.ok (some [⟨1, "a"⟩])) (.ok (some [⟨2, "b"⟩]))).state
          20 3600 (.error ⟨"down"⟩) (.error ⟨"down"⟩)
        = { state := (loadCyclesAndTeams expiredCache 10 3600
              (.ok (some [⟨1, "a"⟩])) (.ok (some [⟨2, "b"⟩]))).state
            error := none
            fetched := false }) ∧
    (loadCyclesAndTeams freshCache 2000 0 (.error ⟨"down"⟩) (.ok none)).fetched = true :=
  ⟨(c8_refresh_ttl freshCache 10 20 3600 [⟨1, "a"⟩] [⟨2, "b"⟩]
      (.error ⟨"down"⟩) (.error ⟨"down"⟩)).1 (by decide),
   (c8_refresh_ttl expiredCache 10 20 3600 [⟨1, "a"⟩] [⟨2, "b"⟩]
      (.error ⟨"down"⟩) (.error ⟨"down"⟩)).2.1 (by decide) (by decide) (by decide) (by decide),
   (c8_refresh_ttl freshCache 2000 0 0 [] [] (.ok none) (.ok none)).2.2 rfl (by decide)
     (.error ⟨"down"⟩) (.ok none)⟩

/-- C9 counterexample: the claim says a network-level failure with no response
(e.g. a timeout) is surfaced as a distinct upstream-unavailable kind; in the
code the `switch` default handles it, so it lands in the same generic
`API request failed` kind as any unmapped status such as 500. -/
theorem c9_counterexample :
    classifySearchError (.axiosErr none none "timeout of 10000ms exceeded" none)
        = .apiRequestFailed none "timeout of 10000ms exceeded" none ∧
    failureTag (classifySearchError (.axiosErr none none "timeout of 10000ms exceeded" none))
        = failureTag (classifySearchError
            (.axiosErr (some 500) none "Internal Server Error" none)) := by decide

/-- C9 (amended): the catch block of `searchOKRs` classifies by HTTP status —
401 to authentication-failed, 403 to access-forbidden, 404 to not-found, 429 to
rate-limited; any other status, and a network-level failure with no response at
all (including a timeout), map to the generic upstream error carrying the
optional status and the message; a non-axios error maps to the failed-to-search
wrapper.  Every caught error maps to one of these structured kinds, so no raw
transport error escapes. -/
theorem c9_error_classification (rm : Option String) (msg : String) (url : Option String)
    (status : Nat) :
    classifySearchError (.axiosErr (some 401) rm msg url)
        = .authenticationFailed (jsStrOr rm msg) ∧
    classifySearchError (.axiosErr (some 403) rm msg url)
        = .accessForbidden (jsStrOr rm msg) ∧
    classifySearchError (.axiosErr (some 404) rm msg url) = .notFound (jsStrOr rm msg) ∧
    classifySearchError (.axiosErr (some 429) rm msg url) = .rateLimited (jsStrOr rm msg) ∧
    (status ≠ 401 → status ≠ 403 → status ≠ 404 → status ≠ 429 →
      classifySearchError (.axiosErr (some status) rm msg url)
        = .apiRequestFailed (some status) (jsStrOr rm msg) url) ∧
    classifySearchError (.axiosErr none rm msg url)
        = .apiRequestFailed none (jsStrOr rm msg) url ∧
    classifySearchError (.otherErr msg) = .searchFailed msg := by
  refine ⟨rfl, rfl, rfl, rfl, fun h1 h3 h4 h9 => ?_, rfl, rfl⟩
  simp [classifySearchError, h1, h3, h4, h9]

/-- Witness for `c9_error_classification` at a concrete unmapped status. -/
theorem c9_error_classification_witness :
    classifySearchError (.axiosErr (some 503) none "Service Unavailable" (some "/v3/elements"))
        = .apiRequestFailed (some 503) (jsStrOr none "Service Unavailable")
            (some "/v3/elements") :=
  (c9_error_classification none "Service Unavailable" (some "/v3/elements") 503).2.2.2.2.1
    (by decide) (by decide) (by decide) (by decide)

/-- The cycle cache of the spec's worked example. -/
def exampleCycles : List CycleInfo := [⟨"id1", "2024-Q1"⟩, ⟨"id2", "2024-Q2"⟩, ⟨"id3", "2024-Q3"⟩]

/-- C4: over the cache ["2024-Q1", "2024-Q2", "2024-Q3"], cycle resolution maps
`current` to the id of "2024-Q3", `previous` to the id of "2024-Q2", `all` to
no filter, any letter-casing of "2024-Q1" to that cycle's id, and the unmatched
name "2099-Q9" to no filter rather than an error. -/
theorem c4_cycle_resolution :
    resolveCycleToIntervalId exampleCycles (some "current") = some "id3" ∧
    resolveCycleToIntervalId exampleCycles (some "previous") = some "id2" ∧
    resolveCycleToIntervalId exampleCycles (some "all") = none ∧
    (∀ s : String, toLowerStr s = "2024-q1" →
      resolveCycleToIntervalId exampleCycles (some s) = some "id1") ∧
    resolveCycleToIntervalId exampleCycles (some "2099-Q9") = none := by
  refine ⟨by decide, by decide, by decide, fun s h => ?_, by decide⟩
  have hs : s ≠ "" := by
    intro he
    subst he
    exact absurd h (by decide)
  simp only [resolveCycleToIntervalId, h, if_neg hs]
  decide

/-- Witness for `c4_cycle_resolution` at the mixed-case name "2024-Q1". -/
theorem c4_cycle_resolution_witness :
    resolveCycleToIntervalId exampleCycles (some "2024-Q1") = some "id1" :=
  c4_cycle_resolution.2.2.2.1 "2024-Q1" (by decide)

/-- A representative objective element (typeId 1) with one nested key result. -/
def sampleElement : Element :=
  { typeId := some 1, id := some 10, name := some "Obj", grade := some 75
    groups := some [⟨"Engineering"⟩]
    childElements := some [{ typeId := some 2, id := some 21, name := some "KR1",
                             progress := some 50 }] }

/-- A representative bare key-result element (typeId 4). -/
def bareKr : Element :=
  { typeId := some 4, id := some 11, name := some "Bare", currentValue := some 80
    groups := some [⟨"Sales"⟩], intervalName := some "2024-Q1" }

/-- C3: with a non-empty search string, `searchOKRs` issues the direct URL
whose query parameters are exactly the workspace id and the encoded search
string; two filters agreeing on `searchString` and `team` but differing in
`cycle` or any date field produce the same request and the same result, and
the result is the normalized response with the team filter applied in memory
after normalization. -/
theorem c3_search_string_invariance (wsId : String) (cyclesCache : List CycleInfo)
    (teamsCache : List TeamInfo) (p1 p2 : OKRSearchParams) (resp : RespValue)
    (hss : truthyStr p1.searchString = true)
    (heq : p1.searchString = p2.searchString) (hteam : p1.team = p2.team) :
    searchRequest wsId cyclesCache p1
        = .searchUrl wsId (encodeURIComponent (p1.searchString.getD "")) ∧
    searchRequest wsId cyclesCache p1 = searchRequest wsId cyclesCache p2 ∧
    searchOKRs teamsCache p1 resp = searchOKRs teamsCache p2 resp ∧
    searchOKRs teamsCache p1 resp
        = (if truthyStr p1.team then
            filterByTeam teamsCache (transformElementsToOKRs (extractElements resp))
              (p1.team.getD "")
          else transformElementsToOKRs (extractElements resp)) := by
  have hss2 : truthyStr p2.searchString = true := heq ▸ hss
  refine ⟨?_, ?_, ?_, ?_⟩
  · simp [searchRequest, hss]
  · simp [searchRequest, hss, hss2, heq]
  · simp [searchOKRs, hss, hss2, heq, hteam]
  · simp [searchOKRs, hss]

/-- A filter with a search string plus cycle and date noise. -/
def filterWithNoise : OKRSearchParams :=
  { searchString := some "okr", cycle := some "current"
    startDateFrom := some "2024-01-01", team := some "Engineering" }

/-- The same search string and team as `filterWithNoise`, different noise. -/
def filterOtherNoise : OKRSearchParams :=
  { searchString := some "okr", dueDateTo := some "2024-12-31", team := some "Engineering" }

/-- Witness for `c3_search_string_invariance` at two concrete filters that
differ only in cycle and date fields. -/
theorem c3_search_string_invariance_witness :
    searchRequest "ws" exampleCycles filterWithNoise
        = .searchUrl "ws" (encodeURIComponent (filterWithNoise.searchString.getD "")) ∧
    searchRequest "ws" exampleCycles filterWithNoise
        = searchRequest "ws" exampleCycles filterOtherNoise ∧
    searchOKRs [] filterWithNoise (.array [sampleElement])
        = searchOKRs [] filterOtherNoise (.array [sampleElement]) ∧
    searchOKRs [] filterWithNoise (.array [sampleElement])
        = (if truthyStr filterWithNoise.team then
            filterByTeam []
              (transformElementsToOKRs (extractElements (.array [sampleElement])))
              (filterWithNoise.team.getD "")
          else transformElementsToOKRs (extractElements (.array [sampleElement]))) :=
  c3_search_string_invariance "ws" exampleCycles [] filterWithNoise filterOtherNoise
    (.array [sampleElement]) (by decide) (by decide) (by decide)

/-- The team filter of an empty OKR list is empty, whichever branch runs. -/
theorem filterByTeam_nil (teamsCache : List TeamInfo) (teamName : String) :
    filterByTeam teamsCache [] teamName = [] := by
  simp [filterByTeam]

/-- C7: under a search string, a bare-array payload and an object payload whose
`data` field holds the same array normalize to identical OKR sequences; every
payload of any other shape (neither a bare array nor an object with an
array-valued `data` field) makes `searchOKRs` return the empty sequence rather
than fail. -/
theorem c7_response_shapes (teamsCache : List TeamInfo) (p : OKRSearchParams)
    (es : List Element) (v : RespValue) (hss : truthyStr p.searchString = true) :
    searchOKRs teamsCache p (.array es)
        = searchOKRs teamsCache p (.object (some (.array es))) ∧
    (isArrayShape v = false → hasDataArray v = false → searchOKRs teamsCache p v = []) := by
  constructor
  · simp [searchOKRs, hss, extractElements]
  · intro h1 h2
    have hev : extractElements v = [] := by
      cases v with
      | array es2 => simp [isArrayShape] at h1
      | primitive => rfl
      | object df =>
        match df with
        | none => rfl
        | some (.array es2) => simp [hasDataArray] at h2
        | some (.object d2) => rfl
        | some .primitive => rfl
    simp [searchOKRs, hss, hev, transformElementsToOKRs, filterByTeam_nil]

/-- Witness for `c7_response_shapes`: a concrete element list and a shapeless
payload. -/
theorem c7_response_shapes_witness :
    searchOKRs [] filterWithNoise (.array [sampleElement, bareKr])
        = searchOKRs [] filterWithNoise (.object (some (.array [sampleElement, bareKr]))) ∧
    searchOKRs [] filterWithNoise (.object none) = [] :=
  ⟨(c7_response_shapes [] filterWithNoise [sampleElement, bareKr] (.object none)
      (by decide)).1,
   (c7_response_shapes [] filterWithNoise [sampleElement, bareKr] (.object none)
      (by decide)).2 rfl rfl⟩

/-- C2 counterexample: the claim says normalization yields one top-level
Objective per `typeId == 1` element and none for other typeIds.  On a payload
holding one `typeId == 1` element and one `typeId == 4` element, the standard
path maps every element, so two Objectives come out of one `typeId == 1`
element. -/
theorem c2_counterexample :
    (transformElementsToOKRs [sampleElement, bareKr]).length
      ≠ ([sampleElement, bareKr].filter (fun element => element.typeId == some 1)).length := by
  decide

/-- C2 (amended): when at least one element has `typeId == 1`, normalization
yields one top-level Objective per input element regardless of its typeId (the
`typeId == 1` filter only selects between the standard and the promotion
paths); each resulting Objective's nested key-result list is exactly its
element's children with `typeId == 2`. -/
theorem c2_standard_path (elements : List Element)
    (h : ∃ e ∈ elements, e.typeId = some 1) :
    transformElementsToOKRs elements = elements.map standardOKR ∧
    ∀ e ∈ elements, (standardOKR e).keyResults
        = ((childListOf e).filter (fun kr => kr.typeId == some 2)).map
            (fun kr => ({ id := idString kr.id, title := kr.name.getD ""
                          progress := kr.progress.getD 0 } : KeyResult)) := by
  obtain ⟨e, he, ht⟩ := h
  constructor
  · have hne : elements ≠ [] := List.ne_nil_of_mem he
    have hlen : ¬ elements.length = 0 := by simpa [List.length_eq_zero] using hne
    have hfil : e ∈ elements.filter (fun element => element.typeId == some 1) := by
      rw [List.mem_filter]
      exact ⟨he, by simp [ht]⟩
    have hcond : ¬((elements.filter (fun element => element.typeId == some 1)).length = 0 ∧
        0 < (elements.filter (fun element => element.typeId == some 4)).length) := by
      rintro ⟨h0, -⟩
      rw [List.length_eq_zero] at h0
      rw [h0] at hfil
      exact absurd hfil (List.not_mem_nil e)
    simp only [transformElementsToOKRs]
    rw [if_neg hlen, if_neg hcond]
  · intro e2 he2
    rfl

/-- Witness for `c2_standard_path` at a concrete mixed payload. -/
theorem c2_standard_path_witness :
    transformElementsToOKRs [sampleElement, bareKr]
        = [sampleElement, bareKr].map standardOKR ∧
    (standardOKR sampleElement).keyResults
        = ((childListOf sampleElement).filter (fun kr => kr.typeId == some 2)).map
            (fun kr => ({ id := idString kr.id, title := kr.name.getD ""
                          progress := kr.progress.getD 0 } : KeyResult)) :=
  ⟨(c2_standard_path [sampleElement, bareKr] ⟨sampleElement, by decide, by decide⟩).1,
   (c2_standard_path [sampleElement, bareKr] ⟨sampleElement, by decide, by decide⟩).2
      sampleElement (by decide)⟩

/-- C6: a payload of only `typeId == 4` elements (hence no `typeId == 1`
element) normalizes to exactly one promoted Objective per input element —
status from its own grade value, its own team and cycle fields — each with an
empty nested key-result list. -/
theorem c6_bare_key_result_promotion (elements : List Element)
    (h : ∀ e ∈ elements, e.typeId = some 4) :
    transformElementsToOKRs elements = elements.map promoteKeyResultToOKR ∧
    ∀ o ∈ elements.map promoteKeyResultToOKR, o.keyResults = [] := by
  constructor
  · cases elements with
    | nil => rfl
    | cons a as =>
      have hfil1 : (a :: as).filter (fun element => element.typeId == some 1) = [] := by
        rw [List.filter_eq_nil_iff]
        intro e he
        simp [h e he]
      have hfil4 : (a :: as).filter (fun element => element.typeId == some 4) = a :: as := by
        rw [List.filter_eq_self]
        intro e he
        simp [h e he]
      simp only [transformElementsToOKRs]
      rw [if_neg (by simp), hfil1, hfil4, if_pos ⟨rfl, by simp⟩]
  · intro o ho
    rw [List.mem_map] at ho
    obtain ⟨e, -, rfl⟩ := ho
    rfl

/-- A second bare key result, below the on-track grade threshold. -/
def bareKr2 : Element :=
  { typeId := some 4, id := some 12, name := some "Bare2", currentValue := some 30
    intervalName := some "2024-Q2" }

/-- Witness for `c6_bare_key_result_promotion` at a concrete bare-KR payload. -/
theorem c6_bare_key_result_promotion_witness :
    transformElementsToOKRs [bareKr, bareKr2]
        = [bareKr, bareKr2].map promoteKeyResultToOKR ∧
    (promoteKeyResultToOKR bareKr).keyResults = [] :=
  ⟨(c6_bare_key_result_promotion [bareKr, bareKr2] (by decide)).1,
   (c6_bare_key_result_promotion [bareKr, bareKr2] (by decide)).2
      (promoteKeyResultToOKR bareKr) (by decide)⟩

/-- C5: for a non-empty team parameter (over a cache whose entries carry the
non-empty ids `loadCyclesAndTeams` produces), if no cached team name matches
case-insensitively the filter returns the empty sequence — a hard exclusion —
and otherwise it returns exactly the objectives whose team name matches
case-insensitively. -/
theorem c5_team_filter (teamsCache : List TeamInfo) (okrs : List OKR) (teamName : String)
    (hne : teamName ≠ "") (hids : ∀ t ∈ teamsCache, t.id ≠ "") :
    ((∀ t ∈ teamsCache, toLowerStr t.name ≠ toLowerStr teamName) →
      filterByTeam teamsCache okrs teamName = []) ∧
    ((∃ t ∈ teamsCache, toLowerStr t.name = toLowerStr teamName) →
      filterByTeam teamsCache okrs teamName
        = okrs.filter (fun okr => toLowerStr okr.team == toLowerStr teamName)) := by
  constructor
  · intro hnomatch
    have hid : resolveTeamToId teamsCache (some teamName) = none := by
      simp only [resolveTeamToId]
      rw [if_neg hne]
      by_cases hlen : teamsCache.length = 0
      · rw [if_pos hlen]
      · rw [if_neg hlen]
        have hfind : teamsCache.find? (fun t => toLowerStr t.name == toLowerStr teamName)
            = none := by
          rw [List.find?_eq_none]
          intro t htmem
          simp [hnomatch t htmem]
        rw [hfind]
        rfl
    simp [filterByTeam, hid, truthyStr, hne]
  · rintro ⟨t, ht, hmatch⟩
    have hsome : (teamsCache.find? (fun tt => toLowerStr tt.name == toLowerStr teamName)).isSome := by
      rw [List.find?_isSome]
      exact ⟨t, ht, by simp [hmatch]⟩
    obtain ⟨tFound, hFound⟩ := Option.isSome_iff_exists.mp hsome
    have hmem := List.mem_of_find?_eq_some hFound
    have htid : tFound.id ≠ "" := hids tFound hmem
    have hid : resolveTeamToId teamsCache (some teamName) = some tFound.id := by
      simp only [resolveTeamToId]
      rw [if_neg hne]
      have hlen : ¬ teamsCache.length = 0 := by
        intro h0
        rw [List.length_eq_zero] at h0
        subst h0
        exact absurd hmem (List.not_mem_nil tFound)
      rw [if_neg hlen, hFound]
      rfl
    have htruthy : truthyStr (some tFound.id) = true := by
      simp [truthyStr, htid]
    simp [filterByTeam, hid, htruthy, hne]

/-- The team cache of the spec's worked example. -/
def exampleTeams : List TeamInfo := [⟨"7", "Marketing"⟩]

/-- An objective attributed to the Marketing team. -/
def marketingOKR : OKR :=
  { id := "1", displayId := "", title := "T", description := "", status := "On Track"
    cycle := "2024-Q1", team := "Marketing", level := "", grade := some 80
    customFields := [], keyResults := [] }

/-- Witness for `c5_team_filter`: an unknown team hard-excludes everything; a
known team keeps exactly the case-insensitive matches. -/
theorem c5_team_filter_witness :
    filterByTeam exampleTeams [marketingOKR] "Sales" = [] ∧
    filterByTeam exampleTeams [marketingOKR] "marketing"
        = [marketingOKR].filter (fun okr => toLowerStr okr.team == toLowerStr "marketing") :=
  ⟨(c5_team_filter exampleTeams [marketingOKR] "Sales" (by decide) (by decide)).1 (by decide),
   (c5_team_filter exampleTeams [marketingOKR] "marketing" (by decide) (by decide)).2
      ⟨⟨"7", "Marketing"⟩, by decide, by decide⟩⟩

/-- Every `dChar` rendering is an ASCII digit. -/
theorem dChar_isDigit (x : Nat) : (dChar x).isDigit = true := by
  unfold dChar
  have h : x % 10 < 10 := Nat.mod_lt x (by decide)
  generalize hk : x % 10 = k
  rw [hk] at h
  interval_cases k <;> decide

/-- The rendering of any parsed date is a fixed-precision ISO-8601 UTC instant
string. -/
theorem isoInstant_toISO (ymd : Nat × Nat × Nat) :
    isIsoInstant (toISOStringOfDate ymd) = true := by
  obtain ⟨y, m, d⟩ := ymd
  simp only [toISOStringOfDate, pad4Chars, pad2Chars, isIsoInstant, String.toList]
  simp [dChar_isDigit]

/-- A filter whose `startDateFrom` does not parse as a date. -/
def badDateFilter : OKRSearchParams :=
  { startDateFrom := some "not-a-date", cycle := some "all" }

/-- `formatDateString` of an absent input. -/
theorem formatDateString_none : formatDateString none = none := rfl

/-- C10: the date formatter is total — it either returns `none` (and the
corresponding query parameter is then omitted from the upstream request while
the query still runs, unchanged) or a fixed-precision ISO-8601 UTC instant
string; "2023-08-04" formats to a valid ISO instant and "not-a-date" to
`none`. -/
theorem c10_date_formatting :
    (∀ s out, formatDateString (some s) = some out → isIsoInstant out = true) ∧
    formatDateString (some "2023-08-04") = some "2023-08-04T00:00:00.000Z" ∧
    formatDateString (some "not-a-date") = none ∧
    (∀ (wsId : String) (cyclesCache : List CycleInfo) (teamsCache : List TeamInfo)
        (p : OKRSearchParams) (resp : RespValue),
      truthyStr p.searchString = false →
      formatDateString p.startDateFrom = none →
      (buildElementsParams wsId cyclesCache p).startDateFrom = none ∧
      searchRequest wsId cyclesCache p
        = searchRequest wsId cyclesCache { p with startDateFrom := none } ∧
      searchOKRs teamsCache p resp
        = searchOKRs teamsCache { p with startDateFrom := none } resp) := by
  refine ⟨fun s out h => ?_, by decide, by decide,
    fun wsId cc tc p resp hss hbad => ⟨?_, ?_, ?_⟩⟩
  · simp only [formatDateString] at h
    by_cases hs : s = ""
    · rw [if_pos hs] at h
      exact absurd h (by simp)
    · rw [if_neg hs] at h
      obtain ⟨ymd, hp, hout⟩ := Option.map_eq_some'.mp h
      exact hout ▸ isoInstant_toISO ymd
  · simp [buildElementsParams, hbad, keepIfTruthy, truthyStr]
  · have hss2 : truthyStr ({ p with startDateFrom := none } : OKRSearchParams).searchString
        = false := hss
    simp [searchRequest, hss, hss2, buildElementsParams, hbad, keepIfTruthy, truthyStr,
      formatDateString_none]
  · simp [searchOKRs, hss]

/-- Witness for `c10_date_formatting`: a leap-day instant, and a concrete query
whose bad `startDateFrom` is dropped without changing the request or result. -/
theorem c10_date_formatting_witness :
    isIsoInstant "2024-02-29T00:00:00.000Z" = true ∧
    (buildElementsParams "ws" exampleCycles badDateFilter).startDateFrom = none ∧
    searchRequest "ws" exampleCycles badDateFilter
        = searchRequest "ws" exampleCycles { badDateFilter with startDateFrom := none } ∧
    searchOKRs [] badDateFilter (.object (some (.array [sampleElement])))
        = searchOKRs [] { badDateFilter with startDateFrom := none }
            (.object (some (.array [sampleElement]))) :=
  ⟨c10_date_formatting.1 "2024-02-29" "2024-02-29T00:00:00.000Z" (by decide),
   (c10_date_formatting.2.2.2 "ws" exampleCycles [] badDateFilter
      (.object (some (.array [sampleElement]))) (by decide) (by decide)).1,
   (c10_date_formatting.2.2.2 "ws" exampleCycles [] badDateFilter
      (.object (some (.array [sampleElement]))) (by decide) (by decide)).2.1,
   (c10_date_formatting.2.2.2 "ws" exampleCycles [] badDateFilter
      (.object (some (.array [sampleElement]))) (by decide) (by decide)).2.2⟩

end Oboard
